import Mathlib

/-!
Verification of the admission-control (rate-limiting) subsystem of the DevSync
backend, a shallow embedding of `backend/core/rate_limiting.py`.

Modelling conventions:
* `time.time()` values and fractional token counts are rationals (`ℚ`); the
  source uses Python floats, whose arithmetic on the small magnitudes involved
  here coincides with exact arithmetic for the claims under study.
* Python `int(x)` (truncation toward zero) is `pyInt`.
* The shared cache is modelled per key: the token bucket's stored dict is an
  `Option BucketState` (`none` = key absent), the sliding window's stored value
  is a `List ℚ` of timestamps (absent key reads as `[]`, matching
  `cache.get(key, [])`), and the fixed window's per-window counters form a
  function `ℤ → ℕ` from window index to count (absent reads as `0`, matching
  `cache.get(key, 0)`).
* A Python `ZeroDivisionError` is modelled by returning `none`: the token
  bucket's denied branch divides by `refill_rate` (zero when `rate = 0`), and
  the fixed window divides `now` by `interval` when computing its key.  Each
  limiter's `is_allowed` returns the decision together with the state it leaves
  persisted in the cache for that key (and, for the fixed window, the TTL of
  the write it performed, if any).
-/

/-- Python `int()` applied to a rational: truncation toward zero
(floor for nonnegative arguments, ceiling for negative ones). -/
def pyInt (q : ℚ) : ℤ := if 0 ≤ q then ⌊q⌋ else ⌈q⌉

/-- The info dictionary each limiter returns alongside the boolean, plus that
boolean itself: keys `remaining`, `limit`, `reset` and (on denial)
`retry_after` of `rate_limiting.py`. -/
structure Decision where
  allowed : Bool
  remaining : ℤ
  limit : ℕ
  reset : ℤ
  retry_after : Option ℤ
deriving DecidableEq, Repr

/-- The dict `{'tokens': ..., 'last_update': ...}` the token bucket persists. -/
structure BucketState where
  tokens : ℚ
  last_update : ℚ
deriving DecidableEq, Repr

/-- Configuration of `TokenBucket.__init__` (lines 38-49): `rate` tokens per
`interval` seconds with a `burst` allowance (default 10). -/
structure TokenBucket where
  rate : ℕ
  interval : ℕ
  burst : ℕ
deriving DecidableEq, Repr

/-- `self.refill_rate = rate / interval` (line 49), tokens per second. -/
def TokenBucket.refill_rate (b : TokenBucket) : ℚ :=
  (b.rate : ℚ) / (b.interval : ℚ)

/-- Lines 66-79: initialize the bucket full when the key is absent, otherwise
refill by elapsed time, capped at `rate + burst`, and stamp `last_update`. -/
def TokenBucket.refresh (b : TokenBucket) (data : Option BucketState) (now : ℚ) :
    BucketState :=
  match data with
  | none => ⟨(b.rate : ℚ), now⟩
  | some d =>
      ⟨min ((b.rate : ℚ) + (b.burst : ℚ))
          (d.tokens + (now - d.last_update) * b.refill_rate), now⟩

/-- `TokenBucket.is_allowed` (lines 55-103).  Returns the decision and the
`BucketState` written back to the cache; `none` models the
`ZeroDivisionError` raised on line 94 when `refill_rate = 0` (in that case the
`cache.set` on line 96 never executes, so nothing is written). -/
def TokenBucket.is_allowed (b : TokenBucket) (data : Option BucketState)
    (now : ℚ) : Option (Decision × BucketState) :=
  let d := b.refresh data now
  if 1 ≤ d.tokens then
    some (⟨true, pyInt (d.tokens - 1), b.rate, pyInt (now + (b.interval : ℚ)), none⟩,
          ⟨d.tokens - 1, now⟩)
  else if b.refill_rate = 0 then none
  else
    let retry_after := pyInt ((1 - d.tokens) / b.refill_rate) + 1
    some (⟨false, 0, b.rate, pyInt (now + (retry_after : ℚ)), some retry_after⟩, d)

/-- The cache state for the key after one `TokenBucket.is_allowed` call at
time `now` (on a `ZeroDivisionError` nothing was written). -/
def TokenBucket.step (b : TokenBucket) (data : Option BucketState) (now : ℚ) :
    Option BucketState :=
  match b.is_allowed data now with
  | none => data
  | some (_, d2) => some d2

/-- The cache state for a key after a sequence of `is_allowed` calls at the
given times, starting from an absent key. -/
def TokenBucket.run (b : TokenBucket) (ts : List ℚ) : Option BucketState :=
  ts.foldl b.step none

/-- Configuration of `SlidingWindowCounter.__init__` (lines 114-122). -/
structure SlidingWindowCounter where
  rate : ℕ
  interval : ℕ
deriving DecidableEq, Repr

/-- Python `min(l)` for a nonempty list, with a fallback for `[]` matching
`min(requests) if requests else now` on line 150. -/
def pyMin (l : List ℚ) (dflt : ℚ) : ℚ :=
  match l with
  | [] => dflt
  | x :: xs => xs.foldl min x

/-- `SlidingWindowCounter.is_allowed` (lines 127-158).  Returns the decision
and the timestamp list left persisted for the key (the denied branch performs
no `cache.set`, so the stored list is returned unchanged). -/
def SlidingWindowCounter.is_allowed (c : SlidingWindowCounter)
    (stored : List ℚ) (now : ℚ) : Decision × List ℚ :=
  let window_start := now - (c.interval : ℚ)
  let requests := stored.filter (fun r => decide (window_start < r))
  if requests.length < c.rate then
    let requests2 := requests ++ [now]
    (⟨true, (c.rate : ℤ) - (requests2.length : ℤ), c.rate,
      pyInt (now + (c.interval : ℚ)), none⟩, requests2)
  else
    let oldest := pyMin requests now
    let retry_after := pyInt (oldest + (c.interval : ℚ) - now) + 1
    (⟨false, 0, c.rate, pyInt (oldest + (c.interval : ℚ)), some retry_after⟩,
     stored)

/-- The stored timestamp list after one sliding-window check at `now`. -/
def SlidingWindowCounter.step (c : SlidingWindowCounter) (stored : List ℚ)
    (now : ℚ) : List ℚ :=
  (c.is_allowed stored now).2

/-- The stored timestamp list after a sequence of checks at the given times,
starting from an absent key (which reads as `[]`). -/
def SlidingWindowCounter.run (c : SlidingWindowCounter) (ts : List ℚ) :
    List ℚ :=
  ts.foldl c.step []

/-- Configuration of `FixedWindowCounter.__init__` (lines 168-176). -/
structure FixedWindowCounter where
  rate : ℕ
  interval : ℕ
deriving DecidableEq, Repr

/-- `FixedWindowCounter.is_allowed` (lines 182-204), with `_get_key`'s window
index `int(time.time() / interval)` (line 179) evaluated at the same `now`
(the source calls `time.time()` twice within the same check).  The store maps
window index to count; the result carries the decision, the updated store, and
the TTL passed to `cache.set`, if a write happened.  `none` models the
`ZeroDivisionError` of `now / interval` when `interval = 0`. -/
def FixedWindowCounter.is_allowed (c : FixedWindowCounter) (store : ℤ → ℕ)
    (now : ℚ) : Option (Decision × (ℤ → ℕ) × Option ℕ) :=
  if c.interval = 0 then none
  else
    let w := pyInt (now / (c.interval : ℚ))
    let window_end : ℤ := (w + 1) * (c.interval : ℤ)
    let count := store w
    if count < c.rate then
      some (⟨true, (c.rate : ℤ) - (count : ℤ) - 1, c.rate, window_end, none⟩,
            Function.update store w (count + 1), some c.interval)
    else
      some (⟨false, 0, c.rate, window_end,
             some (pyInt ((window_end : ℚ) - now) + 1)⟩, store, none)

/-- The per-window counters after one fixed-window check at `now`. -/
def FixedWindowCounter.step (c : FixedWindowCounter) (store : ℤ → ℕ)
    (now : ℚ) : ℤ → ℕ :=
  match c.is_allowed store now with
  | none => store
  | some (_, store2, _) => store2

/-- The per-window counters after a sequence of checks at the given times,
starting from no stored counters. -/
def FixedWindowCounter.run (c : FixedWindowCounter) (ts : List ℚ) : ℤ → ℕ :=
  ts.foldl c.step (fun _ => 0)

/-- A named entry of the static policy table: `{'rate': ..., 'interval': ...}`. -/
structure RateLimitPolicy where
  rate : ℕ
  interval : ℕ
deriving DecidableEq, Repr

/-- The static policy table `RATE_LIMITS` (lines 208-232). -/
def RATE_LIMITS : List (String × RateLimitPolicy) :=
  [("default", ⟨1000, 3600⟩),
   ("burst", ⟨100, 60⟩),
   ("login", ⟨5, 300⟩),
   ("register", ⟨3, 3600⟩),
   ("password_reset", ⟨3, 3600⟩),
   ("portfolio_read", ⟨500, 3600⟩),
   ("portfolio_write", ⟨100, 3600⟩),
   ("export", ⟨10, 3600⟩),
   ("pdf_generate", ⟨20, 3600⟩),
   ("contact", ⟨10, 3600⟩),
   ("message", ⟨50, 3600⟩),
   ("github_import", ⟨10, 3600⟩)]

/-- `RATE_LIMITS['default']`: the entry the table stores under `"default"`. -/
def defaultPolicy : RateLimitPolicy := ⟨1000, 3600⟩

/-- `RATE_LIMITS.get(limit_name, RATE_LIMITS['default'])` (line 280). -/
def getConfig (limit_name : String) : RateLimitPolicy :=
  (RATE_LIMITS.lookup limit_name).getD defaultPolicy

/-- The policy-resolution and algorithm-dispatch core of the `rate_limit`
decorator (lines 276-306): look the policy up with fallback to `default`,
build the selected limiter (`token_bucket` being the `else` arm, with its
default `burst = 10`), and run the check against the caller-visible cache
state for the resolved identifier's key, yielding the decision (`none` models
an uncaught `ZeroDivisionError` from the limiter). -/
def rate_limit (limit_name : String) (algorithm : String)
    (tb : Option BucketState) (sw : List ℚ) (fw : ℤ → ℕ) (now : ℚ) :
    Option Decision :=
  let config := getConfig limit_name
  if algorithm = "sliding_window" then
    some (SlidingWindowCounter.is_allowed ⟨config.rate, config.interval⟩ sw now).1
  else if algorithm = "fixed_window" then
    (FixedWindowCounter.is_allowed ⟨config.rate, config.interval⟩ fw now).map
      (fun r => r.1)
  else
    (TokenBucket.is_allowed ⟨config.rate, config.interval, 10⟩ tb now).map
      (fun r => r.1)

/-- Whether the check numbered `k` (0-indexed) is allowed when every check for
the identifier happens at the same instant `t`, starting from an absent key:
the decision of `is_allowed` run on the state left by `k` prior checks. -/
def TokenBucket.nth_ok (b : TokenBucket) (t : ℚ) (k : ℕ) : Option Bool :=
  (b.is_allowed (b.run (List.replicate k t)) t).map (fun r => r.1.allowed)

/-- Sliding-window analogue of `TokenBucket.nth_ok`. -/
def SlidingWindowCounter.nth_ok (c : SlidingWindowCounter) (t : ℚ) (k : ℕ) :
    Bool :=
  (c.is_allowed (c.run (List.replicate k t)) t).1.allowed

/-- Fixed-window analogue of `TokenBucket.nth_ok`. -/
def FixedWindowCounter.nth_ok (c : FixedWindowCounter) (t : ℚ) (k : ℕ) :
    Option Bool :=
  (c.is_allowed (c.run (List.replicate k t)) t).map (fun r => r.1.allowed)

example : TokenBucket.nth_ok ⟨2, 60, 10⟩ 0 0 = some true := by
  norm_num [TokenBucket.nth_ok, TokenBucket.run, TokenBucket.step,
    TokenBucket.is_allowed, TokenBucket.refresh, TokenBucket.refill_rate, pyInt,
    List.replicate, List.foldl]
example : TokenBucket.nth_ok ⟨2, 60, 10⟩ 0 1 = some true := by
  norm_num [TokenBucket.nth_ok, TokenBucket.run, TokenBucket.step,
    TokenBucket.is_allowed, TokenBucket.refresh, TokenBucket.refill_rate, pyInt,
    List.replicate, List.foldl]
example : TokenBucket.nth_ok ⟨2, 60, 10⟩ 0 2 = some false := by
  norm_num [TokenBucket.nth_ok, TokenBucket.run, TokenBucket.step,
    TokenBucket.is_allowed, TokenBucket.refresh, TokenBucket.refill_rate, pyInt,
    List.replicate, List.foldl]
example : SlidingWindowCounter.nth_ok ⟨2, 60⟩ 0 1 = true := by
  norm_num [SlidingWindowCounter.nth_ok, SlidingWindowCounter.run,
    SlidingWindowCounter.step, SlidingWindowCounter.is_allowed, pyInt, pyMin,
    List.replicate, List.foldl]
example : SlidingWindowCounter.nth_ok ⟨2, 60⟩ 0 2 = false := by
  norm_num [SlidingWindowCounter.nth_ok, SlidingWindowCounter.run,
    SlidingWindowCounter.step, SlidingWindowCounter.is_allowed, pyInt, pyMin,
    List.replicate, List.foldl]
example : FixedWindowCounter.nth_ok ⟨2, 60⟩ 0 1 = some true := by
  norm_num [FixedWindowCounter.nth_ok, FixedWindowCounter.run,
    FixedWindowCounter.step, FixedWindowCounter.is_allowed, pyInt,
    List.replicate, List.foldl, Function.update]
example : FixedWindowCounter.nth_ok ⟨2, 60⟩ 0 2 = some false := by
  norm_num [FixedWindowCounter.nth_ok, FixedWindowCounter.run,
    FixedWindowCounter.step, FixedWindowCounter.is_allowed, pyInt,
    List.replicate, List.foldl, Function.update]
example : TokenBucket.is_allowed ⟨0, 60, 10⟩ none 0 = none := by
  norm_num [TokenBucket.is_allowed, TokenBucket.refresh, TokenBucket.refill_rate]

theorem TokenBucket.tb_is_allowed_eq (b : TokenBucket) (data : Option BucketState)
    (now : ℚ) :
    b.is_allowed data now =
      if 1 ≤ (b.refresh data now).tokens then
        some (⟨true, pyInt ((b.refresh data now).tokens - 1), b.rate,
               pyInt (now + (b.interval : ℚ)), none⟩,
              ⟨(b.refresh data now).tokens - 1, now⟩)
      else if b.refill_rate = 0 then none
      else
        some (⟨false, 0, b.rate,
               pyInt (now +
                 ((pyInt ((1 - (b.refresh data now).tokens) / b.refill_rate) + 1 : ℤ) : ℚ)),
               some (pyInt ((1 - (b.refresh data now).tokens) / b.refill_rate) + 1)⟩,
              b.refresh data now) := rfl

theorem SlidingWindowCounter.sw_is_allowed_eq (c : SlidingWindowCounter)
    (stored : List ℚ) (now : ℚ) :
    c.is_allowed stored now =
      if (stored.filter (fun r => decide (now - (c.interval : ℚ) < r))).length < c.rate then
        (⟨true, (c.rate : ℤ) -
            (((stored.filter (fun r => decide (now - (c.interval : ℚ) < r))) ++ [now]).length : ℤ),
          c.rate, pyInt (now + (c.interval : ℚ)), none⟩,
         (stored.filter (fun r => decide (now - (c.interval : ℚ) < r))) ++ [now])
      else
        (⟨false, 0, c.rate,
          pyInt (pyMin (stored.filter (fun r => decide (now - (c.interval : ℚ) < r))) now +
            (c.interval : ℚ)),
          some (pyInt (pyMin (stored.filter (fun r => decide (now - (c.interval : ℚ) < r))) now +
            (c.interval : ℚ) - now) + 1)⟩, stored) := rfl

theorem FixedWindowCounter.fw_is_allowed_eq (c : FixedWindowCounter) (store : ℤ → ℕ)
    (now : ℚ) :
    c.is_allowed store now =
      if c.interval = 0 then none
      else if store (pyInt (now / (c.interval : ℚ))) < c.rate then
        some (⟨true, (c.rate : ℤ) - (store (pyInt (now / (c.interval : ℚ))) : ℤ) - 1, c.rate,
               (pyInt (now / (c.interval : ℚ)) + 1) * (c.interval : ℤ), none⟩,
              Function.update store (pyInt (now / (c.interval : ℚ)))
                (store (pyInt (now / (c.interval : ℚ))) + 1), some c.interval)
      else
        some (⟨false, 0, c.rate, (pyInt (now / (c.interval : ℚ)) + 1) * (c.interval : ℤ),
               some (pyInt (((pyInt (now / (c.interval : ℚ)) + 1) * (c.interval : ℤ) : ℤ) - now) + 1)⟩,
              store, none) := rfl

theorem pyInt_of_nonneg {q : ℚ} (h : 0 ≤ q) : pyInt q = ⌊q⌋ := if_pos h

theorem pyInt_nonneg {q : ℚ} (h : 0 ≤ q) : 0 ≤ pyInt q := by
  rw [pyInt_of_nonneg h]
  exact Int.floor_nonneg.mpr h

theorem pyInt_add_one_pos {q : ℚ} (h : 0 < q) : 0 < pyInt q + 1 := by
  have := pyInt_nonneg h.le
  omega

theorem pyInt_mono {a b : ℚ} (ha : 0 ≤ a) (hab : a ≤ b) : pyInt a ≤ pyInt b := by
  rw [pyInt_of_nonneg ha, pyInt_of_nonneg (ha.trans hab)]
  exact Int.floor_le_floor hab

theorem lt_pyInt_add_one (q : ℚ) : q < (pyInt q : ℚ) + 1 := by
  unfold pyInt
  split_ifs
  · exact Int.lt_floor_add_one q
  · linarith [Int.le_ceil q]

theorem TokenBucket.refill_rate_nonneg (b : TokenBucket) : 0 ≤ b.refill_rate :=
  div_nonneg (by positivity) (by positivity)

theorem TokenBucket.refill_rate_pos (b : TokenBucket) (h1 : 1 ≤ b.rate)
    (h2 : 1 ≤ b.interval) : 0 < b.refill_rate := by
  unfold TokenBucket.refill_rate
  have hr : (0:ℚ) < (b.rate : ℚ) := by exact_mod_cast Nat.lt_of_lt_of_le Nat.zero_lt_one h1
  have hi : (0:ℚ) < (b.interval : ℚ) := by exact_mod_cast Nat.lt_of_lt_of_le Nat.zero_lt_one h2
  exact div_pos hr hi

theorem TokenBucket.refresh_tokens_le (b : TokenBucket) (data : Option BucketState)
    (now : ℚ) : (b.refresh data now).tokens ≤ (b.rate : ℚ) + (b.burst : ℚ) := by
  cases data with
  | none =>
      simp only [TokenBucket.refresh]
      exact le_add_of_nonneg_right (by positivity)
  | some d => exact min_le_left _ _

theorem TokenBucket.step_tokens_le (b : TokenBucket) (data : Option BucketState)
    (now : ℚ) (h : ∀ d, data = some d → d.tokens ≤ (b.rate : ℚ) + (b.burst : ℚ)) :
    ∀ d, b.step data now = some d → d.tokens ≤ (b.rate : ℚ) + (b.burst : ℚ) := by
  intro d hd
  unfold TokenBucket.step at hd
  rcases heq : b.is_allowed data now with _ | ⟨dec, d2⟩
  · rw [heq] at hd
    exact h d hd
  · rw [heq] at hd
    simp only [Option.some.injEq] at hd
    subst hd
    rw [TokenBucket.tb_is_allowed_eq] at heq
    split_ifs at heq with hA hB
    · obtain ⟨-, h2⟩ := Prod.mk.inj (Option.some.inj heq)
      subst h2
      have := b.refresh_tokens_le data now
      simp only
      linarith
    · obtain ⟨-, h2⟩ := Prod.mk.inj (Option.some.inj heq)
      subst h2
      exact b.refresh_tokens_le data now

theorem TokenBucket.foldl_tokens_le (b : TokenBucket) (ts : List ℚ) :
    ∀ (s : Option BucketState),
      (∀ d, s = some d → d.tokens ≤ (b.rate : ℚ) + (b.burst : ℚ)) →
      ∀ d, ts.foldl b.step s = some d → d.tokens ≤ (b.rate : ℚ) + (b.burst : ℚ) := by
  induction ts with
  | nil =>
      intro s hs d hd
      exact hs d hd
  | cons t ts ih =>
      intro s hs d hd
      exact ih (b.step s t) (b.step_tokens_le s t hs) d hd

/-- Claim C4: over every sequence of `is_allowed` calls (burst being a natural
number, hence nonnegative), the persisted `tokens` never exceeds
`rate + burst`; moreover an absent key initializes `tokens = rate`. -/
theorem tokenBucket_tokens_never_exceed_cap (b : TokenBucket) (ts : List ℚ)
    (now : ℚ) (d : BucketState) (h : b.run ts = some d) :
    d.tokens ≤ (b.rate : ℚ) + (b.burst : ℚ) ∧
      (b.refresh none now).tokens = (b.rate : ℚ) := by
  refine ⟨?_, rfl⟩
  exact b.foldl_tokens_le ts none (by rintro d ⟨⟩) d h

/-- Witness for C4 at a concrete run: two same-instant calls under
`rate = 2, interval = 60, burst = 10` leave `tokens = 0 ≤ 2 + 10`. -/
theorem tokenBucket_tokens_never_exceed_cap_witness :
    TokenBucket.run ⟨2, 60, 10⟩ [0, 0] = some ⟨0, 0⟩ ∧
      ((⟨0, 0⟩ : BucketState).tokens ≤ ((2 : ℕ) : ℚ) + ((10 : ℕ) : ℚ) ∧
        (TokenBucket.refresh ⟨2, 60, 10⟩ none 7).tokens = ((2 : ℕ) : ℚ)) :=
  have h : TokenBucket.run ⟨2, 60, 10⟩ [0, 0] = some ⟨0, 0⟩ := by
    norm_num [TokenBucket.run, TokenBucket.step, TokenBucket.is_allowed,
      TokenBucket.refresh, TokenBucket.refill_rate, pyInt, List.foldl]
  ⟨h, tokenBucket_tokens_never_exceed_cap ⟨2, 60, 10⟩ [0, 0] 7 ⟨0, 0⟩ h⟩

/-- Counterexample to claim C7 as stated: with `rate = 0` the first-ever check
for an identifier does not return `allowed=true` — the bucket initializes with
`tokens = 0`, the check is denied, and the retry-after computation divides by
`refill_rate = 0` (a `ZeroDivisionError`, modelled as `none`). -/
theorem tokenBucket_first_check_rate_zero_counterexample :
    TokenBucket.is_allowed ⟨0, 60, 10⟩ none 0 = none := by
  norm_num [TokenBucket.is_allowed, TokenBucket.refresh, TokenBucket.refill_rate]

/-- Claim C7 (amended): for every policy with `rate >= 1`, the first-ever
check for an identifier (key absent) returns `allowed=true`, because the
bucket is initialized full with `tokens = rate` (one token is then consumed,
leaving `rate - 1`). -/
theorem tokenBucket_first_check_allowed (b : TokenBucket) (now : ℚ)
    (h : 1 ≤ b.rate) :
    (b.is_allowed none now).map (fun r => r.1.allowed) = some true ∧
      (b.is_allowed none now).map (fun r => r.2.tokens) =
        some ((b.rate : ℚ) - 1) := by
  have h1 : (1 : ℚ) ≤ (b.rate : ℚ) := by exact_mod_cast h
  rw [TokenBucket.tb_is_allowed_eq]
  have htok : (b.refresh none now).tokens = (b.rate : ℚ) := rfl
  rw [htok, if_pos h1]
  exact ⟨rfl, rfl⟩

/-- Witness for C7 (amended) at `rate = 5, interval = 60, burst = 10`,
`now = 0`. -/
theorem tokenBucket_first_check_allowed_witness :
    1 ≤ (5 : ℕ) ∧
      ((TokenBucket.is_allowed ⟨5, 60, 10⟩ none 0).map (fun r => r.1.allowed) =
          some true ∧
        (TokenBucket.is_allowed ⟨5, 60, 10⟩ none 0).map (fun r => r.2.tokens) =
          some (((5 : ℕ) : ℚ) - 1)) :=
  ⟨by norm_num, tokenBucket_first_check_allowed ⟨5, 60, 10⟩ 0 (by norm_num)⟩

/-- Claim C9: for every policy with `rate >= 1` (and a positive interval,
without which `__init__` itself divides by zero), `is_allowed` is total — the
denied branch's division by `refill_rate` is guarded because
`refill_rate > 0`; and for `rate = 0` a denied check divides by zero (`none`). -/
theorem tokenBucket_no_division_by_zero (b : TokenBucket)
    (data : Option BucketState) (now : ℚ) (h1 : 1 ≤ b.rate)
    (h2 : 1 ≤ b.interval) :
    (b.is_allowed data now).isSome = true ∧
      TokenBucket.is_allowed ⟨0, 30, 5⟩ (some ⟨1/2, 0⟩) 0 = none := by
  constructor
  · rw [TokenBucket.tb_is_allowed_eq]
    split_ifs with hA hB
    · rfl
    · exact absurd hB (ne_of_gt (b.refill_rate_pos h1 h2))
    · rfl
  · norm_num [TokenBucket.is_allowed, TokenBucket.refresh, TokenBucket.refill_rate]

/-- Witness for C9 at `rate = 5, interval = 300, burst = 10` on a concrete
stored state. -/
theorem tokenBucket_no_division_by_zero_witness :
    1 ≤ (5 : ℕ) ∧ 1 ≤ (300 : ℕ) ∧
      ((TokenBucket.is_allowed ⟨5, 300, 10⟩ (some ⟨2, 0⟩) 1).isSome = true ∧
        TokenBucket.is_allowed ⟨0, 30, 5⟩ (some ⟨1/2, 0⟩) 0 = none) :=
  ⟨by norm_num, by norm_num,
    tokenBucket_no_division_by_zero ⟨5, 300, 10⟩ (some ⟨2, 0⟩) 1 (by norm_num)
      (by norm_num)⟩

/-- Counterexample to claim C2 as stated: the code computes the denied
retry-after with Python `int()` (floor), not `ceil`.  At
`rate = 2, interval = 1, burst = 0` with stored state `tokens = 0`, the code
returns `retry_after = int(0.5) + 1 = 1`, while the claimed formula
`ceil((1 - tokens) / refill_rate) + 1` gives `2`. -/
theorem tokenBucket_retry_after_ceil_counterexample :
    (TokenBucket.is_allowed ⟨2, 1, 0⟩ (some ⟨0, 0⟩) 0).map
        (fun r => r.1.retry_after) ≠
      some (some (⌈(1 - (TokenBucket.refresh ⟨2, 1, 0⟩ (some ⟨0, 0⟩) 0).tokens) /
          TokenBucket.refill_rate ⟨2, 1, 0⟩⌉ + 1)) := by
  norm_num [TokenBucket.is_allowed, TokenBucket.refresh, TokenBucket.refill_rate,
    pyInt]

/-- Claim C2 (amended): when a token-bucket check is denied, the refreshed but
undecremented state is persisted, and the decision has `remaining = 0` and
`retry_after = floor((1 - tokens) / refill_rate) + 1` (Python `int()`
truncation of the positive quotient, not `ceil(...) + 1`), where `tokens` is
the refreshed fractional token count. -/
theorem tokenBucket_denied_decision (b : TokenBucket) (data : Option BucketState)
    (now : ℚ) (dec : Decision) (d2 : BucketState)
    (h : b.is_allowed data now = some (dec, d2)) (hfalse : dec.allowed = false) :
    d2 = b.refresh data now ∧ dec.remaining = 0 ∧
      dec.retry_after =
        some (⌊(1 - (b.refresh data now).tokens) / b.refill_rate⌋ + 1) := by
  rw [TokenBucket.tb_is_allowed_eq] at h
  split_ifs at h with hA hB
  · obtain ⟨h1, -⟩ := Prod.mk.inj (Option.some.inj h)
    rw [← h1] at hfalse
    simp at hfalse
  · obtain ⟨h1, h2⟩ := Prod.mk.inj (Option.some.inj h)
    subst h2
    have hrr : 0 < b.refill_rate := lt_of_le_of_ne b.refill_rate_nonneg (Ne.symm hB)
    have harg : 0 ≤ (1 - (b.refresh data now).tokens) / b.refill_rate := by
      have : 0 ≤ 1 - (b.refresh data now).tokens := by linarith [not_le.mp hA]
      positivity
    rw [← h1]
    exact ⟨rfl, rfl, by rw [pyInt_of_nonneg harg]⟩

/-- Witness for C2 (amended) at `rate = 5, interval = 60, burst = 10` on the
stored state `tokens = 0, last_update = 0`, checked at `now = 0`. -/
theorem tokenBucket_denied_decision_witness :
    TokenBucket.is_allowed ⟨5, 60, 10⟩ (some ⟨0, 0⟩) 0 =
        some (⟨false, 0, 5, 13, some 13⟩, ⟨0, 0⟩) ∧
      (⟨false, 0, 5, 13, some 13⟩ : Decision).allowed = false ∧
      ((⟨0, 0⟩ : BucketState) = TokenBucket.refresh ⟨5, 60, 10⟩ (some ⟨0, 0⟩) 0 ∧
        (⟨false, 0, 5, 13, some 13⟩ : Decision).remaining = 0 ∧
        (⟨false, 0, 5, 13, some 13⟩ : Decision).retry_after =
          some (⌊(1 - (TokenBucket.refresh ⟨5, 60, 10⟩ (some ⟨0, 0⟩) 0).tokens) /
              TokenBucket.refill_rate ⟨5, 60, 10⟩⌋ + 1)) :=
  have h : TokenBucket.is_allowed ⟨5, 60, 10⟩ (some ⟨0, 0⟩) 0 =
      some (⟨false, 0, 5, 13, some 13⟩, ⟨0, 0⟩) := by
    norm_num [TokenBucket.is_allowed, TokenBucket.refresh, TokenBucket.refill_rate,
      pyInt]
  ⟨h, rfl, tokenBucket_denied_decision ⟨5, 60, 10⟩ (some ⟨0, 0⟩) 0 _ _ h rfl⟩

theorem SlidingWindowCounter.step_length_le (c : SlidingWindowCounter)
    (stored : List ℚ) (now : ℚ) (h : stored.length ≤ c.rate) :
    (c.step stored now).length ≤ c.rate := by
  unfold SlidingWindowCounter.step
  rw [SlidingWindowCounter.sw_is_allowed_eq]
  split_ifs with hc
  · simpa using hc
  · exact h

theorem SlidingWindowCounter.run_length_le (c : SlidingWindowCounter)
    (ts : List ℚ) : (c.run ts).length ≤ c.rate := by
  unfold SlidingWindowCounter.run
  have H : ∀ (s : List ℚ), s.length ≤ c.rate →
      (ts.foldl c.step s).length ≤ c.rate := by
    induction ts with
    | nil => exact fun s hs => hs
    | cons t ts ih =>
        intro s hs
        exact ih (c.step s t) (c.step_length_le s t hs)
  exact H [] (by simp)

theorem SlidingWindowCounter.filter_eq_of_denied (c : SlidingWindowCounter)
    (stored : List ℚ) (now : ℚ) (hlen : stored.length ≤ c.rate)
    (hd : ¬ (stored.filter (fun r => decide (now - (c.interval : ℚ) < r))).length < c.rate) :
    stored.filter (fun r => decide (now - (c.interval : ℚ) < r)) = stored := by
  refine (List.filter_sublist stored).eq_of_length (le_antisymm ?_ ?_)
  · exact (List.filter_sublist stored).length_le
  · exact hlen.trans (not_lt.mp hd)

theorem SlidingWindowCounter.step_mem_gt (c : SlidingWindowCounter)
    (stored : List ℚ) (now : ℚ) (hT : 1 ≤ c.interval)
    (hlen : stored.length ≤ c.rate) :
    ∀ r ∈ c.step stored now, now - (c.interval : ℚ) < r := by
  intro r hr
  have hTq : (0 : ℚ) < (c.interval : ℚ) := by
    exact_mod_cast Nat.lt_of_lt_of_le Nat.zero_lt_one hT
  unfold SlidingWindowCounter.step at hr
  rw [SlidingWindowCounter.sw_is_allowed_eq] at hr
  split_ifs at hr with hc
  · rcases List.mem_append.mp hr with hmem | hmem
    · exact of_decide_eq_true (List.mem_filter.mp hmem).2
    · rw [List.mem_singleton.mp hmem]
      linarith
  · have := c.filter_eq_of_denied stored now hlen hc
    have hall := List.filter_eq_self.mp this
    exact of_decide_eq_true (hall r hr)

/-- Claim C3: after every sliding-window check — allowed or denied — the
timestamp list persisted for the key holds no entry with
`timestamp <= now - interval`, `now` being the time of that check.  (An
allowed check persists the pruned list plus `now`; a denied check writes
nothing, and denial forces every already-stored entry to lie inside the
window, because stored lists never grow beyond `rate` entries.) -/
theorem slidingWindow_pruned_after_call (c : SlidingWindowCounter)
    (ts : List ℚ) (t : ℚ) (r : ℚ) (hT : 1 ≤ c.interval)
    (hr : r ∈ c.run (ts ++ [t])) : ¬ r ≤ t - (c.interval : ℚ) := by
  rw [not_le]
  rw [SlidingWindowCounter.run, List.foldl_append, List.foldl_cons,
    List.foldl_nil] at hr
  exact c.step_mem_gt (c.run ts) t hT (c.run_length_le ts) r hr

/-- Witness for C3: three checks at times 0, 5, 61 under
`rate = 2, interval = 60`; the entry 5 left stored after the last call
satisfies `5 > 61 - 60`. -/
theorem slidingWindow_pruned_after_call_witness :
    (5 : ℚ) ∈ SlidingWindowCounter.run ⟨2, 60⟩ ([0, 5] ++ [61]) ∧
      1 ≤ (60 : ℕ) ∧ ¬ (5 : ℚ) ≤ 61 - ((60 : ℕ) : ℚ) :=
  have hm : (5 : ℚ) ∈ SlidingWindowCounter.run ⟨2, 60⟩ ([0, 5] ++ [61]) := by
    norm_num [SlidingWindowCounter.run, SlidingWindowCounter.step,
      SlidingWindowCounter.is_allowed, pyInt, pyMin, List.foldl, List.filter]
  ⟨hm, by norm_num,
    slidingWindow_pruned_after_call ⟨2, 60⟩ [0, 5] 61 5 (by norm_num) hm⟩

/-- Claim C10: a denied sliding-window check and a denied fixed-window check
write nothing: the persisted state for the key is exactly what it was before
the check (and no TTL-carrying `cache.set` happens for the fixed window). -/
theorem denied_checks_write_nothing (c : SlidingWindowCounter)
    (f : FixedWindowCounter) (stored : List ℚ) (store : ℤ → ℕ)
    (now now2 : ℚ) (d1 : Decision) (l1 : List ℚ)
    (h1 : c.is_allowed stored now = (d1, l1)) (h2 : d1.allowed = false)
    (d2 : Decision) (st2 : ℤ → ℕ) (ttl2 : Option ℕ)
    (h3 : f.is_allowed store now2 = some (d2, st2, ttl2))
    (h4 : d2.allowed = false) :
    l1 = stored ∧ st2 = store ∧ ttl2 = none := by
  rw [SlidingWindowCounter.sw_is_allowed_eq] at h1
  rw [FixedWindowCounter.fw_is_allowed_eq] at h3
  split_ifs at h1 with hc
  · obtain ⟨hd, -⟩ := Prod.mk.inj h1
    rw [← hd] at h2
    simp at h2
  · obtain ⟨-, hl⟩ := Prod.mk.inj h1
    split_ifs at h3 with h0 hfc
    · obtain ⟨hd, hrest⟩ := Prod.mk.inj (Option.some.inj h3)
      rw [← hd] at h4
      simp at h4
    · obtain ⟨-, hrest⟩ := Prod.mk.inj (Option.some.inj h3)
      obtain ⟨hst, httl⟩ := Prod.mk.inj hrest
      exact ⟨hl.symm, hst.symm, httl.symm⟩

/-- Witness for C10: denied checks at `rate = 1, interval = 60` on the stored
list `[0]` and on a window-0 count of 1. -/
theorem denied_checks_write_nothing_witness :
    SlidingWindowCounter.is_allowed ⟨1, 60⟩ [0] 0 =
        ((⟨false, 0, 1, 60, some 61⟩ : Decision), [0]) ∧
      FixedWindowCounter.is_allowed ⟨1, 60⟩ (fun _ => 1) 0 =
        some ((⟨false, 0, 1, 60, some 61⟩ : Decision), (fun _ => 1), none) ∧
      ([0] : List ℚ) = [0] ∧
      (fun _ : ℤ => (1 : ℕ)) = (fun _ : ℤ => (1 : ℕ)) ∧
      (none : Option ℕ) = none :=
  have hsw : SlidingWindowCounter.is_allowed ⟨1, 60⟩ [0] 0 =
      ((⟨false, 0, 1, 60, some 61⟩ : Decision), [0]) := by
    norm_num [SlidingWindowCounter.is_allowed, pyInt, pyMin, List.filter]
  have hfw : FixedWindowCounter.is_allowed ⟨1, 60⟩ (fun _ => 1) 0 =
      some ((⟨false, 0, 1, 60, some 61⟩ : Decision), (fun _ => 1), none) := by
    norm_num [FixedWindowCounter.is_allowed, pyInt]
  have h := denied_checks_write_nothing ⟨1, 60⟩ ⟨1, 60⟩ [0] (fun _ => 1) 0 0
    _ _ hsw rfl _ _ _ hfw rfl
  ⟨hsw, hfw, h.1, h.2.1, h.2.2⟩

theorem FixedWindowCounter.lt_window_end (f : FixedWindowCounter) (now : ℚ)
    (hT : 1 ≤ f.interval) :
    now < (((pyInt (now / (f.interval : ℚ)) + 1) * (f.interval : ℤ) : ℤ) : ℚ) := by
  have hT0 : (0 : ℚ) < (f.interval : ℚ) := by
    exact_mod_cast Nat.lt_of_lt_of_le Nat.zero_lt_one hT
  have h1 := lt_pyInt_add_one (now / (f.interval : ℚ))
  calc now = now / (f.interval : ℚ) * (f.interval : ℚ) :=
        (div_mul_cancel₀ now (ne_of_gt hT0)).symm
    _ < ((pyInt (now / (f.interval : ℚ)) : ℚ) + 1) * (f.interval : ℚ) :=
        mul_lt_mul_of_pos_right h1 hT0
    _ = (((pyInt (now / (f.interval : ℚ)) + 1) * (f.interval : ℤ) : ℤ) : ℚ) := by
        push_cast
        ring

/-- Counterexample to claim C5 as stated: the denied retry-after uses Python
`int()` (floor), not `ceil`.  With `rate = 1, interval = 60`, a stored window
count of 1 and `now = 10.5`, the code returns
`retry_after = int(60 - 10.5) + 1 = 50`, while the claimed
`ceil((window_index+1)*interval - now) + 1` gives `51`. -/
theorem fixedWindow_retry_after_ceil_counterexample :
    (FixedWindowCounter.is_allowed ⟨1, 60⟩ (fun _ => 1) (21/2)).map
        (fun r => r.1.retry_after) ≠
      some (some (⌈(((pyInt ((21/2 : ℚ) / (((60 : ℕ) : ℚ))) + 1) *
          ((60 : ℕ) : ℤ) : ℤ) : ℚ) - 21/2⌉ + 1)) := by
  have hc : (⌈(99 : ℚ) / 2⌉ : ℤ) = 50 := by
    rw [Int.ceil_eq_iff]
    norm_num
  norm_num [FixedWindowCounter.is_allowed, pyInt]
  omega

/-- Claim C5 (amended): a fixed-window check is allowed iff the stored count
for `(identifier, window_index)` is below `rate` (absent reads as 0); on
allow it persists `count + 1` with TTL equal to `interval` and returns
`remaining = rate - count - 1`, `reset = (window_index+1)*interval`; on deny
it writes nothing and returns `remaining = 0` and
`retry_after = floor((window_index+1)*interval - now) + 1` (Python `int()`
truncation of the positive difference, not `ceil(...) + 1`). -/
theorem fixedWindow_check_characterization (f : FixedWindowCounter)
    (store : ℤ → ℕ) (now : ℚ) (d : Decision) (st2 : ℤ → ℕ) (ttl : Option ℕ)
    (hT : 1 ≤ f.interval) (h : f.is_allowed store now = some (d, st2, ttl)) :
    (d.allowed = true ↔ store (pyInt (now / (f.interval : ℚ))) < f.rate) ∧
      (d.allowed = true →
        st2 = Function.update store (pyInt (now / (f.interval : ℚ)))
            (store (pyInt (now / (f.interval : ℚ))) + 1) ∧
          ttl = some f.interval ∧
          d.remaining = (f.rate : ℤ) -
            (store (pyInt (now / (f.interval : ℚ))) : ℤ) - 1 ∧
          d.reset = (pyInt (now / (f.interval : ℚ)) + 1) * (f.interval : ℤ)) ∧
      (d.allowed = false →
        d.remaining = 0 ∧ st2 = store ∧ ttl = none ∧
          d.retry_after = some
            (⌊(((pyInt (now / (f.interval : ℚ)) + 1) * (f.interval : ℤ) : ℤ) : ℚ)
                - now⌋ + 1)) := by
  rw [FixedWindowCounter.fw_is_allowed_eq] at h
  split_ifs at h with h0 hc
  · obtain ⟨hd, hrest⟩ := Prod.mk.inj (Option.some.inj h)
    obtain ⟨hst, httl⟩ := Prod.mk.inj hrest
    refine ⟨?_, ?_, ?_⟩
    · rw [← hd]
      simpa using hc
    · rintro -
      exact ⟨hst.symm, httl.symm, by rw [← hd], by rw [← hd]⟩
    · intro hfalse
      rw [← hd] at hfalse
      simp at hfalse
  · obtain ⟨hd, hrest⟩ := Prod.mk.inj (Option.some.inj h)
    obtain ⟨hst, httl⟩ := Prod.mk.inj hrest
    have hpos : (0 : ℚ) ≤
        (((pyInt (now / (f.interval : ℚ)) + 1) * (f.interval : ℤ) : ℤ) : ℚ) - now :=
      le_of_lt (sub_pos.mpr (f.lt_window_end now hT))
    refine ⟨?_, ?_, ?_⟩
    · rw [← hd]
      simpa using hc
    · intro htrue
      rw [← hd] at htrue
      simp at htrue
    · rintro -
      refine ⟨by rw [← hd], hst.symm, httl.symm, ?_⟩
      rw [← hd]
      simp only
      rw [pyInt_of_nonneg hpos]

/-- Witness for C5 (amended): the denied check of the counterexample input,
`rate = 1, interval = 60`, window-0 count 1, `now = 10.5`. -/
theorem fixedWindow_check_characterization_witness :
    1 ≤ (60 : ℕ) ∧
      FixedWindowCounter.is_allowed ⟨1, 60⟩ (fun _ => 1) (21/2) =
        some ((⟨false, 0, 1, 60, some 50⟩ : Decision), (fun _ => 1), none) ∧
      (((⟨false, 0, 1, 60, some 50⟩ : Decision).allowed = true ↔
          (fun _ : ℤ => 1) (pyInt ((21/2 : ℚ) / (((60 : ℕ) : ℚ)))) < 1) ∧
        ((⟨false, 0, 1, 60, some 50⟩ : Decision).allowed = true →
          (fun _ : ℤ => 1) = Function.update (fun _ : ℤ => 1)
              (pyInt ((21/2 : ℚ) / (((60 : ℕ) : ℚ))))
              ((fun _ : ℤ => 1) (pyInt ((21/2 : ℚ) / (((60 : ℕ) : ℚ)))) + 1) ∧
            (none : Option ℕ) = some 60 ∧
            (⟨false, 0, 1, 60, some 50⟩ : Decision).remaining = ((1 : ℕ) : ℤ) -
              ((fun _ : ℤ => 1) (pyInt ((21/2 : ℚ) / (((60 : ℕ) : ℚ)))) : ℤ) - 1 ∧
            (⟨false, 0, 1, 60, some 50⟩ : Decision).reset =
              (pyInt ((21/2 : ℚ) / (((60 : ℕ) : ℚ))) + 1) * ((60 : ℕ) : ℤ)) ∧
        ((⟨false, 0, 1, 60, some 50⟩ : Decision).allowed = false →
          (⟨false, 0, 1, 60, some 50⟩ : Decision).remaining = 0 ∧
            (fun _ : ℤ => (1 : ℕ)) = (fun _ : ℤ => (1 : ℕ)) ∧
            (none : Option ℕ) = none ∧
            (⟨false, 0, 1, 60, some 50⟩ : Decision).retry_after = some
              (⌊(((pyInt ((21/2 : ℚ) / (((60 : ℕ) : ℚ))) + 1) *
                  ((60 : ℕ) : ℤ) : ℤ) : ℚ) - 21/2⌋ + 1))) :=
  have h : FixedWindowCounter.is_allowed ⟨1, 60⟩ (fun _ => 1) (21/2) =
      some ((⟨false, 0, 1, 60, some 50⟩ : Decision), (fun _ => 1), none) := by
    norm_num [FixedWindowCounter.is_allowed, pyInt]
  ⟨by norm_num, h,
    fixedWindow_check_characterization ⟨1, 60⟩ (fun _ => 1) (21/2) _ _ _
      (by norm_num) h⟩

theorem TokenBucket.tb_run_append_one (b : TokenBucket) (ts : List ℚ) (t : ℚ) :
    b.run (ts ++ [t]) = b.step (b.run ts) t := by
  rw [TokenBucket.run, TokenBucket.run, List.foldl_append, List.foldl_cons,
    List.foldl_nil]

theorem SlidingWindowCounter.sw_run_append_one (c : SlidingWindowCounter)
    (ts : List ℚ) (t : ℚ) : c.run (ts ++ [t]) = c.step (c.run ts) t := by
  rw [SlidingWindowCounter.run, SlidingWindowCounter.run, List.foldl_append,
    List.foldl_cons, List.foldl_nil]

theorem FixedWindowCounter.fw_run_append_one (f : FixedWindowCounter)
    (ts : List ℚ) (t : ℚ) : f.run (ts ++ [t]) = f.step (f.run ts) t := by
  rw [FixedWindowCounter.run, FixedWindowCounter.run, List.foldl_append,
    List.foldl_cons, List.foldl_nil]

theorem TokenBucket.refresh_same_instant (b : TokenBucket) (x t : ℚ) :
    b.refresh (some ⟨x, t⟩) t = ⟨min ((b.rate : ℚ) + (b.burst : ℚ)) x, t⟩ := by
  unfold TokenBucket.refresh
  norm_num

theorem TokenBucket.step_none_full (b : TokenBucket) (t : ℚ) (hN : 1 ≤ b.rate) :
    b.step none t = some ⟨(b.rate : ℚ) - 1, t⟩ := by
  unfold TokenBucket.step
  rw [TokenBucket.tb_is_allowed_eq]
  have h1 : (1 : ℚ) ≤ (b.refresh none t).tokens := by
    show (1 : ℚ) ≤ (b.rate : ℚ)
    exact_mod_cast hN
  rw [if_pos h1]
  rfl

theorem TokenBucket.step_same_instant (b : TokenBucket) (x t : ℚ) (hx1 : 1 ≤ x)
    (hx2 : x ≤ (b.rate : ℚ) + (b.burst : ℚ)) :
    b.step (some ⟨x, t⟩) t = some ⟨x - 1, t⟩ := by
  unfold TokenBucket.step
  rw [TokenBucket.tb_is_allowed_eq, TokenBucket.refresh_same_instant,
    min_eq_right hx2]
  rw [if_pos hx1]

theorem TokenBucket.tb_run_replicate (b : TokenBucket) (t : ℚ) (hN : 1 ≤ b.rate) :
    ∀ k, k ≤ b.rate →
      b.run (List.replicate k t) =
        if k = 0 then none else some ⟨(b.rate : ℚ) - (k : ℚ), t⟩ := by
  intro k
  induction k with
  | zero => intro _; rfl
  | succ k ih =>
      intro hk
      rw [List.replicate_succ', TokenBucket.tb_run_append_one, ih (by omega),
        if_neg (Nat.succ_ne_zero k)]
      rcases Nat.eq_zero_or_pos k with rfl | hkpos
      · rw [if_pos rfl, b.step_none_full t hN]
        norm_num
      · rw [if_neg (by omega)]
        have hx1 : (1 : ℚ) ≤ (b.rate : ℚ) - (k : ℚ) := by
          have : (k : ℚ) + 1 ≤ (b.rate : ℚ) := by exact_mod_cast hk
          linarith
        have hx2 : (b.rate : ℚ) - (k : ℚ) ≤ (b.rate : ℚ) + (b.burst : ℚ) := by
          have h1 : (0 : ℚ) ≤ (k : ℚ) := by positivity
          have h2 : (0 : ℚ) ≤ (b.burst : ℚ) := by positivity
          linarith
        rw [b.step_same_instant _ t hx1 hx2]
        have harith : (b.rate : ℚ) - (k : ℚ) - 1 = (b.rate : ℚ) - ((k + 1 : ℕ) : ℚ) := by
          push_cast
          ring
        rw [harith]

theorem SlidingWindowCounter.filter_replicate_window (c : SlidingWindowCounter)
    (t : ℚ) (hT : 1 ≤ c.interval) (k : ℕ) :
    (List.replicate k t).filter (fun r => decide (t - (c.interval : ℚ) < r)) =
      List.replicate k t := by
  rw [List.filter_eq_self]
  intro a ha
  rw [List.eq_of_mem_replicate ha]
  have hTq : (0 : ℚ) < (c.interval : ℚ) := by
    exact_mod_cast Nat.lt_of_lt_of_le Nat.zero_lt_one hT
  exact decide_eq_true (by linarith)

theorem SlidingWindowCounter.sw_run_replicate (c : SlidingWindowCounter) (t : ℚ)
    (hT : 1 ≤ c.interval) :
    ∀ k, k ≤ c.rate → c.run (List.replicate k t) = List.replicate k t := by
  intro k
  induction k with
  | zero => intro _; rfl
  | succ k ih =>
      intro hk
      rw [List.replicate_succ', SlidingWindowCounter.sw_run_append_one,
        ih (by omega)]
      unfold SlidingWindowCounter.step
      rw [SlidingWindowCounter.sw_is_allowed_eq,
        c.filter_replicate_window t hT k]
      rw [if_pos (by simpa using Nat.lt_of_succ_le hk)]

theorem FixedWindowCounter.run_replicate_count (f : FixedWindowCounter)
    (t : ℚ) (hT : 1 ≤ f.interval) :
    ∀ k, k ≤ f.rate →
      f.run (List.replicate k t) (pyInt (t / (f.interval : ℚ))) = k := by
  intro k
  induction k with
  | zero => intro _; rfl
  | succ k ih =>
      intro hk
      rw [List.replicate_succ', FixedWindowCounter.fw_run_append_one]
      unfold FixedWindowCounter.step
      rw [FixedWindowCounter.fw_is_allowed_eq, if_neg (by omega : ¬ f.interval = 0),
        if_pos (by rw [ih (by omega)]; omega)]
      simp [ih (by omega)]

theorem TokenBucket.tb_nth_ok_lt (b : TokenBucket) (t : ℚ) (k : ℕ)
    (hN : 1 ≤ b.rate) (hk : k < b.rate) : b.nth_ok t k = some true := by
  unfold TokenBucket.nth_ok
  rw [b.tb_run_replicate t hN k (le_of_lt hk)]
  rcases Nat.eq_zero_or_pos k with rfl | hkpos
  · rw [if_pos rfl, TokenBucket.tb_is_allowed_eq]
    have h1 : (1 : ℚ) ≤ (b.refresh none t).tokens := by
      show (1 : ℚ) ≤ (b.rate : ℚ)
      exact_mod_cast hN
    rw [if_pos h1]
    rfl
  · rw [if_neg (by omega), TokenBucket.tb_is_allowed_eq,
      TokenBucket.refresh_same_instant]
    have hx2 : (b.rate : ℚ) - (k : ℚ) ≤ (b.rate : ℚ) + (b.burst : ℚ) := by
      have h1 : (0 : ℚ) ≤ (k : ℚ) := by positivity
      have h2 : (0 : ℚ) ≤ (b.burst : ℚ) := by positivity
      linarith
    rw [min_eq_right hx2]
    have hx1 : (1 : ℚ) ≤ (b.rate : ℚ) - (k : ℚ) := by
      have : (k : ℚ) + 1 ≤ (b.rate : ℚ) := by exact_mod_cast hk
      linarith
    rw [if_pos hx1]
    rfl

theorem TokenBucket.tb_nth_ok_denied (b : TokenBucket) (t : ℚ) (hN : 1 ≤ b.rate)
    (hT : 1 ≤ b.interval) : b.nth_ok t b.rate = some false := by
  unfold TokenBucket.nth_ok
  rw [b.tb_run_replicate t hN b.rate le_rfl, if_neg (by omega),
    TokenBucket.tb_is_allowed_eq, TokenBucket.refresh_same_instant]
  have hx2 : (b.rate : ℚ) - (b.rate : ℚ) ≤ (b.rate : ℚ) + (b.burst : ℚ) := by
    have h1 : (0 : ℚ) ≤ (b.rate : ℚ) := by positivity
    have h2 : (0 : ℚ) ≤ (b.burst : ℚ) := by positivity
    linarith
  rw [min_eq_right hx2]
  rw [if_neg (by norm_num : ¬ (1 : ℚ) ≤ (b.rate : ℚ) - (b.rate : ℚ))]
  rw [if_neg (ne_of_gt (b.refill_rate_pos hN hT))]
  rfl

theorem SlidingWindowCounter.sw_nth_ok_lt (c : SlidingWindowCounter) (t : ℚ)
    (k : ℕ) (hT : 1 ≤ c.interval) (hk : k < c.rate) : c.nth_ok t k = true := by
  unfold SlidingWindowCounter.nth_ok
  rw [c.sw_run_replicate t hT k (le_of_lt hk), SlidingWindowCounter.sw_is_allowed_eq,
    c.filter_replicate_window t hT k]
  rw [if_pos (by simpa using hk)]

theorem SlidingWindowCounter.sw_nth_ok_denied (c : SlidingWindowCounter) (t : ℚ)
    (hT : 1 ≤ c.interval) : c.nth_ok t c.rate = false := by
  unfold SlidingWindowCounter.nth_ok
  rw [c.sw_run_replicate t hT c.rate le_rfl, SlidingWindowCounter.sw_is_allowed_eq,
    c.filter_replicate_window t hT c.rate]
  rw [if_neg (by simp)]

theorem FixedWindowCounter.fw_nth_ok_lt (f : FixedWindowCounter) (t : ℚ) (k : ℕ)
    (hT : 1 ≤ f.interval) (hk : k < f.rate) : f.nth_ok t k = some true := by
  unfold FixedWindowCounter.nth_ok
  rw [FixedWindowCounter.fw_is_allowed_eq, if_neg (by omega : ¬ f.interval = 0),
    if_pos (by rw [f.run_replicate_count t hT k (le_of_lt hk)]; exact hk)]
  rfl

theorem FixedWindowCounter.fw_nth_ok_denied (f : FixedWindowCounter) (t : ℚ)
    (hT : 1 ≤ f.interval) : f.nth_ok t f.rate = some false := by
  unfold FixedWindowCounter.nth_ok
  rw [FixedWindowCounter.fw_is_allowed_eq, if_neg (by omega : ¬ f.interval = 0),
    if_neg (by rw [f.run_replicate_count t hT f.rate le_rfl]; omega)]
  rfl

/-- Claim C1: for each of the three algorithms with policy
`rate = N >= 1, interval = T >= 1` (and any token-bucket burst), starting
from an absent key, every check numbered `k < N` issued at the same instant
`t` is allowed, and the check numbered `N` (the `(N+1)`-th consecutive check)
at that instant is denied. -/
theorem admission_ceiling (N T B k : ℕ) (t : ℚ) (hN : 1 ≤ N) (hT : 1 ≤ T)
    (hk : k < N) :
    TokenBucket.nth_ok ⟨N, T, B⟩ t k = some true ∧
      TokenBucket.nth_ok ⟨N, T, B⟩ t N = some false ∧
      SlidingWindowCounter.nth_ok ⟨N, T⟩ t k = true ∧
      SlidingWindowCounter.nth_ok ⟨N, T⟩ t N = false ∧
      FixedWindowCounter.nth_ok ⟨N, T⟩ t k = some true ∧
      FixedWindowCounter.nth_ok ⟨N, T⟩ t N = some false :=
  ⟨TokenBucket.tb_nth_ok_lt ⟨N, T, B⟩ t k hN hk,
    TokenBucket.tb_nth_ok_denied ⟨N, T, B⟩ t hN hT,
    SlidingWindowCounter.sw_nth_ok_lt ⟨N, T⟩ t k hT hk,
    SlidingWindowCounter.sw_nth_ok_denied ⟨N, T⟩ t hT,
    FixedWindowCounter.fw_nth_ok_lt ⟨N, T⟩ t k hT hk,
    FixedWindowCounter.fw_nth_ok_denied ⟨N, T⟩ t hT⟩

/-- Witness for C1 at `N = 2, T = 60, B = 10, k = 1, t = 0`. -/
theorem admission_ceiling_witness :
    1 ≤ 2 ∧ 1 ≤ 60 ∧ 1 < 2 ∧
      (TokenBucket.nth_ok ⟨2, 60, 10⟩ 0 1 = some true ∧
        TokenBucket.nth_ok ⟨2, 60, 10⟩ 0 2 = some false ∧
        SlidingWindowCounter.nth_ok ⟨2, 60⟩ 0 1 = true ∧
        SlidingWindowCounter.nth_ok ⟨2, 60⟩ 0 2 = false ∧
        FixedWindowCounter.nth_ok ⟨2, 60⟩ 0 1 = some true ∧
        FixedWindowCounter.nth_ok ⟨2, 60⟩ 0 2 = some false) :=
  ⟨by norm_num, by norm_num, by norm_num,
    admission_ceiling 2 60 10 1 0 (by norm_num) (by norm_num) (by norm_num)⟩

theorem RATE_LIMITS_lookup_default :
    RATE_LIMITS.lookup "default" = some defaultPolicy := rfl

/-- Claim C8: when the `rate_limit` wrapper is given a policy name that is not
in the static table, it does not raise: `RATE_LIMITS.get(limit_name,
RATE_LIMITS['default'])` falls back to the `default` policy
(`rate 1000, interval 3600`) and the check proceeds exactly as it would under
the `default` policy. -/
theorem rate_limit_unknown_policy_fallback (limit_name algorithm : String)
    (tb : Option BucketState) (sw : List ℚ) (fw : ℤ → ℕ) (now : ℚ)
    (h : RATE_LIMITS.lookup limit_name = none) :
    getConfig limit_name = RateLimitPolicy.mk 1000 3600 ∧
      rate_limit limit_name algorithm tb sw fw now =
        rate_limit "default" algorithm tb sw fw now := by
  have h1 : getConfig limit_name = defaultPolicy := by
    unfold getConfig
    rw [h]
    rfl
  have h2 : getConfig "default" = defaultPolicy := by
    unfold getConfig
    rw [RATE_LIMITS_lookup_default]
    rfl
  refine ⟨h1, ?_⟩
  unfold rate_limit
  rw [h1, h2]

/-- Witness for C8: the misspelled policy name `"loginn"` behaves exactly
like `"default"`. -/
theorem rate_limit_unknown_policy_fallback_witness :
    RATE_LIMITS.lookup "loginn" = none ∧
      (getConfig "loginn" = RateLimitPolicy.mk 1000 3600 ∧
        rate_limit "loginn" "token_bucket" none [] (fun _ => 0) 0 =
          rate_limit "default" "token_bucket" none [] (fun _ => 0) 0) :=
  have h : RATE_LIMITS.lookup "loginn" = none := by decide
  ⟨h, rate_limit_unknown_policy_fallback "loginn" "token_bucket" none []
    (fun _ => 0) 0 h⟩

theorem TokenBucket.tb_denied_both_retry (b : TokenBucket) (s : BucketState)
    (now1 now2 : ℚ) (d1 d2 : Decision) (s1 s2 : BucketState)
    (hN : 1 ≤ b.rate) (hT : 1 ≤ b.interval) (h12 : now1 ≤ now2)
    (h1 : b.is_allowed (some s) now1 = some (d1, s1)) (hf1 : d1.allowed = false)
    (h2 : b.is_allowed (some s1) now2 = some (d2, s2))
    (hf2 : d2.allowed = false) :
    0 < d1.retry_after.getD 0 ∧ 0 < d2.retry_after.getD 0 ∧
      d2.retry_after.getD 0 ≤ d1.retry_after.getD 0 := by
  have hrr : 0 < b.refill_rate := b.refill_rate_pos hN hT
  rw [TokenBucket.tb_is_allowed_eq] at h1
  split_ifs at h1 with hA1 hB1
  · obtain ⟨hd, -⟩ := Prod.mk.inj (Option.some.inj h1)
    rw [← hd] at hf1
    simp at hf1
  · obtain ⟨hd1, hs1⟩ := Prod.mk.inj (Option.some.inj h1)
    rw [TokenBucket.tb_is_allowed_eq] at h2
    split_ifs at h2 with hA2 _hB2
    · obtain ⟨hd, -⟩ := Prod.mk.inj (Option.some.inj h2)
      rw [← hd] at hf2
      simp at hf2
    · obtain ⟨hd2, -⟩ := Prod.mk.inj (Option.some.inj h2)
      have ht1cap : (b.refresh (some s) now1).tokens ≤ (b.rate : ℚ) + (b.burst : ℚ) :=
        b.refresh_tokens_le _ _
      have hs1tok : s1.tokens = (b.refresh (some s) now1).tokens := by
        rw [← hs1]
      have hs1lu : s1.last_update = now1 := by
        rw [← hs1]
        rfl
      have ht2eq : (b.refresh (some s1) now2).tokens =
          min ((b.rate : ℚ) + (b.burst : ℚ))
            (s1.tokens + (now2 - s1.last_update) * b.refill_rate) := rfl
      have h1le2 : (b.refresh (some s) now1).tokens ≤
          (b.refresh (some s1) now2).tokens := by
        rw [ht2eq, hs1tok, hs1lu]
        refine le_min ht1cap ?_
        have hmul : 0 ≤ (now2 - now1) * b.refill_rate :=
          mul_nonneg (by linarith) hrr.le
        linarith
      have hx1pos : 0 < (1 - (b.refresh (some s) now1).tokens) / b.refill_rate :=
        div_pos (by linarith [not_le.mp hA1]) hrr
      have hx2pos : 0 < (1 - (b.refresh (some s1) now2).tokens) / b.refill_rate :=
        div_pos (by linarith [not_le.mp hA2]) hrr
      have hxle : (1 - (b.refresh (some s1) now2).tokens) / b.refill_rate ≤
          (1 - (b.refresh (some s) now1).tokens) / b.refill_rate :=
        (div_le_div_iff_of_pos_right hrr).mpr (by linarith)
      rw [← hd1, ← hd2]
      refine ⟨pyInt_add_one_pos hx1pos, pyInt_add_one_pos hx2pos, ?_⟩
      show pyInt ((1 - (b.refresh (some s1) now2).tokens) / b.refill_rate) + 1 ≤
        pyInt ((1 - (b.refresh (some s) now1).tokens) / b.refill_rate) + 1
      have := pyInt_mono hx2pos.le hxle
      omega

theorem foldl_min_mem (xs : List ℚ) : ∀ x : ℚ, xs.foldl min x ∈ x :: xs := by
  induction xs with
  | nil =>
      intro x
      simp
  | cons y ys ih =>
      intro x
      rw [List.foldl_cons]
      rcases List.mem_cons.mp (ih (min x y)) with h1 | h1
      · rcases min_choice x y with hm | hm
        · rw [h1, hm]
          simp
        · rw [h1, hm]
          simp
      · exact List.mem_cons.mpr (Or.inr (List.mem_cons.mpr (Or.inr h1)))

theorem pyMin_mem (l : List ℚ) (dflt : ℚ) (h : l ≠ []) : pyMin l dflt ∈ l := by
  cases l with
  | nil => exact absurd rfl h
  | cons x xs => exact foldl_min_mem xs x

theorem SlidingWindowCounter.denied_char (c : SlidingWindowCounter)
    (stored : List ℚ) (now : ℚ) (d : Decision) (l2 : List ℚ)
    (hlen : stored.length ≤ c.rate)
    (h : c.is_allowed stored now = (d, l2)) (hf : d.allowed = false) :
    l2 = stored ∧
      d.retry_after =
        some (pyInt (pyMin stored now + (c.interval : ℚ) - now) + 1) ∧
      ∀ r ∈ stored, now - (c.interval : ℚ) < r := by
  rw [SlidingWindowCounter.sw_is_allowed_eq] at h
  split_ifs at h with hc
  · obtain ⟨hd, -⟩ := Prod.mk.inj h
    rw [← hd] at hf
    simp at hf
  · obtain ⟨hd, hl⟩ := Prod.mk.inj h
    have hfe := c.filter_eq_of_denied stored now hlen hc
    rw [hfe] at hd
    refine ⟨hl.symm, by rw [← hd], ?_⟩
    intro r hr
    exact of_decide_eq_true ((List.filter_eq_self.mp hfe) r hr)

theorem SlidingWindowCounter.sw_denied_both_retry (c : SlidingWindowCounter)
    (stored : List ℚ) (now1 now2 : ℚ) (e1 e2 : Decision) (l1 l2 : List ℚ)
    (hT : 1 ≤ c.interval) (h12 : now1 ≤ now2) (hlen : stored.length ≤ c.rate)
    (g1 : c.is_allowed stored now1 = (e1, l1)) (gf1 : e1.allowed = false)
    (g2 : c.is_allowed l1 now2 = (e2, l2)) (gf2 : e2.allowed = false) :
    0 < e1.retry_after.getD 0 ∧ 0 < e2.retry_after.getD 0 ∧
      e2.retry_after.getD 0 ≤ e1.retry_after.getD 0 := by
  have hTq : (0 : ℚ) < (c.interval : ℚ) := by
    exact_mod_cast Nat.lt_of_lt_of_le Nat.zero_lt_one hT
  obtain ⟨hl1, hr1, hfresh1⟩ := c.denied_char stored now1 e1 l1 hlen g1 gf1
  rw [hl1] at g2
  obtain ⟨-, hr2, hfresh2⟩ := c.denied_char stored now2 e2 l2 hlen g2 gf2
  rw [hr1, hr2]
  cases stored with
  | nil =>
      have hx1 : (0 : ℚ) < pyMin [] now1 + (c.interval : ℚ) - now1 := by
        show (0 : ℚ) < now1 + (c.interval : ℚ) - now1
        linarith
      have hx2 : (0 : ℚ) < pyMin [] now2 + (c.interval : ℚ) - now2 := by
        show (0 : ℚ) < now2 + (c.interval : ℚ) - now2
        linarith
      refine ⟨pyInt_add_one_pos hx1, pyInt_add_one_pos hx2, ?_⟩
      have harg : pyMin [] now2 + (c.interval : ℚ) - now2 =
          pyMin [] now1 + (c.interval : ℚ) - now1 := by
        show now2 + (c.interval : ℚ) - now2 = now1 + (c.interval : ℚ) - now1
        ring
      simp [harg]
  | cons y ys =>
      have hm2 : pyMin (y :: ys) now2 = pyMin (y :: ys) now1 := rfl
      have hmem : pyMin (y :: ys) now1 ∈ y :: ys :=
        pyMin_mem (y :: ys) now1 (by simp)
      have hfr2 := hfresh2 (pyMin (y :: ys) now1) hmem
      have hx2 : (0 : ℚ) < pyMin (y :: ys) now1 + (c.interval : ℚ) - now2 := by
        linarith
      have hx1 : (0 : ℚ) < pyMin (y :: ys) now1 + (c.interval : ℚ) - now1 := by
        linarith
      rw [hm2]
      refine ⟨pyInt_add_one_pos hx1, pyInt_add_one_pos hx2, ?_⟩
      show pyInt (pyMin (y :: ys) now1 + (c.interval : ℚ) - now2) + 1 ≤
        pyInt (pyMin (y :: ys) now1 + (c.interval : ℚ) - now1) + 1
      have hmono := pyInt_mono hx2.le
        (show pyMin (y :: ys) now1 + (c.interval : ℚ) - now2 ≤
            pyMin (y :: ys) now1 + (c.interval : ℚ) - now1 by linarith)
      omega

theorem FixedWindowCounter.fw_denied_both_retry (f : FixedWindowCounter)
    (store : ℤ → ℕ) (now1 now2 : ℚ) (c1 c2 : Decision) (st1 st2 : ℤ → ℕ)
    (u1 u2 : Option ℕ) (hT : 1 ≤ f.interval) (h12 : now1 ≤ now2)
    (k1 : f.is_allowed store now1 = some (c1, st1, u1))
    (kf1 : c1.allowed = false)
    (k2 : f.is_allowed st1 now2 = some (c2, st2, u2))
    (kf2 : c2.allowed = false)
    (hw : pyInt (now1 / (f.interval : ℚ)) = pyInt (now2 / (f.interval : ℚ))) :
    0 < c1.retry_after.getD 0 ∧ 0 < c2.retry_after.getD 0 ∧
      c2.retry_after.getD 0 ≤ c1.retry_after.getD 0 := by
  rw [FixedWindowCounter.fw_is_allowed_eq] at k1
  split_ifs at k1 with h01 hc1
  · obtain ⟨hd, -⟩ := Prod.mk.inj (Option.some.inj k1)
    rw [← hd] at kf1
    simp at kf1
  · rw [FixedWindowCounter.fw_is_allowed_eq] at k2
    split_ifs at k2 with h02 _hc2
    · obtain ⟨hd, -⟩ := Prod.mk.inj (Option.some.inj k2)
      rw [← hd] at kf2
      simp at kf2
    · obtain ⟨hd1, -⟩ := Prod.mk.inj (Option.some.inj k1)
      obtain ⟨hd2, -⟩ := Prod.mk.inj (Option.some.inj k2)
      rw [← hd1, ← hd2]
      have hlt1 := f.lt_window_end now1 hT
      have hlt2 := f.lt_window_end now2 hT
      rw [← hw] at hlt2
      have hx1 : (0 : ℚ) <
          (((pyInt (now1 / (f.interval : ℚ)) + 1) * (f.interval : ℤ) : ℤ) : ℚ)
            - now1 := sub_pos.mpr hlt1
      have hx2 : (0 : ℚ) <
          (((pyInt (now1 / (f.interval : ℚ)) + 1) * (f.interval : ℤ) : ℤ) : ℚ)
            - now2 := sub_pos.mpr hlt2
      refine ⟨pyInt_add_one_pos hx1, ?_, ?_⟩
      · show 0 < pyInt
          ((((pyInt (now2 / (f.interval : ℚ)) + 1) * (f.interval : ℤ) : ℤ) : ℚ)
            - now2) + 1
        rw [← hw]
        exact pyInt_add_one_pos hx2
      · show pyInt
            ((((pyInt (now2 / (f.interval : ℚ)) + 1) * (f.interval : ℤ) : ℤ) : ℚ)
              - now2) + 1 ≤ pyInt
            ((((pyInt (now1 / (f.interval : ℚ)) + 1) * (f.interval : ℤ) : ℤ) : ℚ)
              - now1) + 1
        rw [← hw]
        have := pyInt_mono hx2.le (by linarith : _ ≤
          (((pyInt (now1 / (f.interval : ℚ)) + 1) * (f.interval : ℤ) : ℤ) : ℚ)
            - now1)
        omega

/-- Claim C6: for each of the three algorithms under a policy
`rate = N >= 1, interval = T >= 1`, a denied decision's `retry_after` is
strictly positive, and across two successive denied re-checks for the same
identifier at non-decreasing times (within the same window for the fixed
window; from a reachable stored list, i.e. one of at most `rate` entries, for
the sliding window), the second `retry_after` is no larger than the first. -/
theorem retry_after_positive_and_monotone (N T B : ℕ) (now1 now2 : ℚ)
    (s : BucketState) (d1 d2 : Decision) (s1 s2 : BucketState)
    (stored : List ℚ) (e1 e2 : Decision) (l1 l2 : List ℚ)
    (store : ℤ → ℕ) (c1 c2 : Decision) (st1 st2 : ℤ → ℕ) (u1 u2 : Option ℕ)
    (hN : 1 ≤ N) (hT : 1 ≤ T) (h12 : now1 ≤ now2)
    (h1 : TokenBucket.is_allowed ⟨N, T, B⟩ (some s) now1 = some (d1, s1))
    (hf1 : d1.allowed = false)
    (h2 : TokenBucket.is_allowed ⟨N, T, B⟩ (some s1) now2 = some (d2, s2))
    (hf2 : d2.allowed = false)
    (hlen : stored.length ≤ N)
    (g1 : SlidingWindowCounter.is_allowed ⟨N, T⟩ stored now1 = (e1, l1))
    (gf1 : e1.allowed = false)
    (g2 : SlidingWindowCounter.is_allowed ⟨N, T⟩ l1 now2 = (e2, l2))
    (gf2 : e2.allowed = false)
    (k1 : FixedWindowCounter.is_allowed ⟨N, T⟩ store now1 = some (c1, st1, u1))
    (kf1 : c1.allowed = false)
    (k2 : FixedWindowCounter.is_allowed ⟨N, T⟩ st1 now2 = some (c2, st2, u2))
    (kf2 : c2.allowed = false)
    (hw : pyInt (now1 / (T : ℚ)) = pyInt (now2 / (T : ℚ))) :
    (0 < d1.retry_after.getD 0 ∧ 0 < d2.retry_after.getD 0 ∧
        d2.retry_after.getD 0 ≤ d1.retry_after.getD 0) ∧
      (0 < e1.retry_after.getD 0 ∧ 0 < e2.retry_after.getD 0 ∧
        e2.retry_after.getD 0 ≤ e1.retry_after.getD 0) ∧
      (0 < c1.retry_after.getD 0 ∧ 0 < c2.retry_after.getD 0 ∧
        c2.retry_after.getD 0 ≤ c1.retry_after.getD 0) :=
  ⟨TokenBucket.tb_denied_both_retry ⟨N, T, B⟩ s now1 now2 d1 d2 s1 s2 hN hT h12
      h1 hf1 h2 hf2,
    SlidingWindowCounter.sw_denied_both_retry ⟨N, T⟩ stored now1 now2 e1 e2 l1 l2
      hT h12 hlen g1 gf1 g2 gf2,
    FixedWindowCounter.fw_denied_both_retry ⟨N, T⟩ store now1 now2 c1 c2 st1 st2
      u1 u2 hT h12 k1 kf1 k2 kf2 hw⟩

/-- Witness for C6 at `rate = 1, interval = 60, burst = 0`, with denied
re-checks at times 0 and 1 for all three algorithms. -/
theorem retry_after_positive_and_monotone_witness :
    1 ≤ 1 ∧ 1 ≤ 60 ∧ (0 : ℚ) ≤ 1 ∧
      TokenBucket.is_allowed ⟨1, 60, 0⟩ (some ⟨0, 0⟩) 0 =
        some (⟨false, 0, 1, 61, some 61⟩, ⟨0, 0⟩) ∧
      TokenBucket.is_allowed ⟨1, 60, 0⟩ (some ⟨0, 0⟩) 1 =
        some (⟨false, 0, 1, 61, some 60⟩, ⟨1/60, 1⟩) ∧
      ([(0 : ℚ)].length ≤ 1 ∧
        SlidingWindowCounter.is_allowed ⟨1, 60⟩ [0] 0 =
          (⟨false, 0, 1, 60, some 61⟩, [0]) ∧
        SlidingWindowCounter.is_allowed ⟨1, 60⟩ [0] 1 =
          (⟨false, 0, 1, 60, some 60⟩, [0])) ∧
      FixedWindowCounter.is_allowed ⟨1, 60⟩ (fun _ => 1) 0 =
        some (⟨false, 0, 1, 60, some 61⟩, (fun _ => 1), none) ∧
      FixedWindowCounter.is_allowed ⟨1, 60⟩ (fun _ => 1) 1 =
        some (⟨false, 0, 1, 60, some 60⟩, (fun _ => 1), none) ∧
      pyInt ((0 : ℚ) / ((60 : ℕ) : ℚ)) = pyInt ((1 : ℚ) / ((60 : ℕ) : ℚ)) ∧
      (((0 : ℤ) < (some (61 : ℤ)).getD 0 ∧ 0 < (some (60 : ℤ)).getD 0 ∧
          (some (60 : ℤ)).getD 0 ≤ (some (61 : ℤ)).getD 0) ∧
        ((0 : ℤ) < (some (61 : ℤ)).getD 0 ∧ 0 < (some (60 : ℤ)).getD 0 ∧
          (some (60 : ℤ)).getD 0 ≤ (some (61 : ℤ)).getD 0) ∧
        ((0 : ℤ) < (some (61 : ℤ)).getD 0 ∧ 0 < (some (60 : ℤ)).getD 0 ∧
          (some (60 : ℤ)).getD 0 ≤ (some (61 : ℤ)).getD 0)) :=
  have htb1 : TokenBucket.is_allowed ⟨1, 60, 0⟩ (some ⟨0, 0⟩) 0 =
      some (⟨false, 0, 1, 61, some 61⟩, ⟨0, 0⟩) := by
    norm_num [TokenBucket.is_allowed, TokenBucket.refresh,
      TokenBucket.refill_rate, pyInt]
  have htb2 : TokenBucket.is_allowed ⟨1, 60, 0⟩ (some ⟨0, 0⟩) 1 =
      some (⟨false, 0, 1, 61, some 60⟩, ⟨1/60, 1⟩) := by
    norm_num [TokenBucket.is_allowed, TokenBucket.refresh,
      TokenBucket.refill_rate, pyInt]
  have hsw1 : SlidingWindowCounter.is_allowed ⟨1, 60⟩ [0] 0 =
      (⟨false, 0, 1, 60, some 61⟩, [0]) := by
    norm_num [SlidingWindowCounter.is_allowed, pyInt, pyMin, List.filter]
  have hsw2 : SlidingWindowCounter.is_allowed ⟨1, 60⟩ [0] 1 =
      (⟨false, 0, 1, 60, some 60⟩, [0]) := by
    norm_num [SlidingWindowCounter.is_allowed, pyInt, pyMin, List.filter]
  have hfw1 : FixedWindowCounter.is_allowed ⟨1, 60⟩ (fun _ => 1) 0 =
      some (⟨false, 0, 1, 60, some 61⟩, (fun _ => 1), none) := by
    norm_num [FixedWindowCounter.is_allowed, pyInt]
  have hfw2 : FixedWindowCounter.is_allowed ⟨1, 60⟩ (fun _ => 1) 1 =
      some (⟨false, 0, 1, 60, some 60⟩, (fun _ => 1), none) := by
    norm_num [FixedWindowCounter.is_allowed, pyInt]
  have hwin : pyInt ((0 : ℚ) / ((60 : ℕ) : ℚ)) = pyInt ((1 : ℚ) / ((60 : ℕ) : ℚ)) := by
    norm_num [pyInt]
  ⟨le_rfl, by norm_num, by norm_num, htb1, htb2, ⟨by norm_num, hsw1, hsw2⟩,
    hfw1, hfw2, hwin,
    retry_after_positive_and_monotone 1 60 0 0 1 ⟨0, 0⟩ _ _ _ _ [0] _ _ _ _
      (fun _ => 1) _ _ _ _ _ _ (by norm_num) (by norm_num) (by norm_num)
      htb1 rfl htb2 rfl (by norm_num) hsw1 rfl hsw2 rfl hfw1 rfl hfw2 rfl hwin⟩
